import Mathlib

/-!
Verification of the `WebSocketService` progress-channel client
(`src/lib/websocket.ts` of the cli-tools-frontend repository) against its
specification.  The TypeScript class is shallowly embedded as a state
machine: the mutable fields of the class become a Lean structure, each
asynchronous callback (`onopen`, `onclose`, `onmessage`, `onerror`), the
public methods (`connect`, `disconnect`, `onProgress`, ...) and the
keep-alive timer tick become pure transition functions producing a new
state together with a list of observable outputs (delivered events, sent
frames, scheduled reconnect timers, connection-change callbacks).
-/

namespace CliToolsFrontend

/-- `DownloadProgress.status`: the five status strings of the TS interface. -/
inductive Status where
  | downloading
  | processing
  | complete
  | error
  | log
  deriving DecidableEq, Repr

/-- `DownloadProgress.level`: the four log levels of the TS interface. -/
inductive Level where
  | debug
  | info
  | warning
  | error
  deriving DecidableEq, Repr

/-- The `DownloadProgress` interface: one mandatory `status` tag plus
optional payload fields.  Numeric JS fields are modelled as `Int`. -/
structure DownloadProgress where
  status : Status
  title : Option String := none
  downloaded_bytes : Option Int := none
  total_bytes : Option Int := none
  speed : Option Int := none
  eta : Option Int := none
  progress : Option Int := none
  message : Option String := none
  filename : Option String := none
  type : Option String := none
  size : Option Int := none
  level : Option Level := none
  deriving DecidableEq, Repr

/-! ### The noise-filter patterns (`LOG_PATTERNS.FILTER`)

The seven case-insensitive regexes are modelled over lower-cased
character lists.  Six of them are plain substring searches; the seventh,
`/\[generic\] \w+: Downloading webpage/i`, needs a one-or-more word-char
run, written out as a small matcher. -/

/-- Lower-case a string to a character list (models the `i` regex flag). -/
def lowerChars (s : String) : List Char :=
  s.data.map Char.toLower

/-- Does predicate `p` hold of some suffix of the list?  (Regex search
tries every start position.) -/
def existsPos (p : List Char → Bool) : List Char → Bool
  | [] => p []
  | c :: cs => p (c :: cs) || existsPos p cs

/-- Case-insensitive substring test: models a literal `/pat/i` regex. -/
def containsCI (pat s : String) : Bool :=
  existsPos (fun t => (lowerChars pat).isPrefixOf t) (lowerChars s)

/-- A JS `\w` character: ASCII letter, digit or underscore. -/
def isWordChar (c : Char) : Bool :=
  c.isAlpha || c.isDigit || c = '_'

/-- Match one-or-more word characters followed by `suffix` (the `\w+`
part of the seventh filter pattern, with backtracking). -/
def wordRun (suffix : List Char) : List Char → Bool
  | [] => false
  | c :: cs => isWordChar c && (suffix.isPrefixOf cs || wordRun suffix cs)

/-- Strip a literal pattern from the front of a list, if present. -/
def stripPat : List Char → List Char → Option (List Char)
  | [], s => some s
  | _ :: _, [] => none
  | a :: as, b :: bs => if a = b then stripPat as bs else none

/-- The pattern `/\[generic\] \w+: Downloading webpage/i` matched at the
head of an (already lower-cased) character list. -/
def genericAt (s : List Char) : Bool :=
  match stripPat "[generic] ".data s with
  | some rest => wordRun ": downloading webpage".data rest
  | none => false

/-- `shouldFilterLog`: true when the message matches one of the seven
`LOG_PATTERNS.FILTER` regexes. -/
def shouldFilterLog (message : String) : Bool :=
  containsCI "[debug]" message ||
  containsCI "Downloading webpage" message ||
  containsCI "Downloading api" message ||
  containsCI "Downloading m3u8" message ||
  containsCI "Downloading MPD manifest" message ||
  containsCI "Downloading JSON metadata" message ||
  existsPos genericAt (lowerChars message)

/-! ### Transport handle and service state -/

/-- The `readyState` values of a browser WebSocket. -/
inductive ReadyState where
  | CONNECTING
  | OPEN
  | CLOSING
  | CLOSED
  deriving DecidableEq, Repr

/-- A transport instance (`new WebSocket(fullUrl)`): an identity (so
distinct instances can be counted), the URL it was created with, and its
current ready state. -/
structure WSHandle where
  id : Nat
  url : String
  readyState : ReadyState
  deriving DecidableEq, Repr

/-- The mutable fields of `WebSocketService`, plus bookkeeping that makes
the timers observable: `pingIntervalActive`/`pingPeriodMs` model the
`pingInterval` handle, `pendingReconnectTimers` records the delays of
reconnect timers scheduled by `setTimeout` (the class stores no handle to
them, so nothing can cancel them), and `nextId` supplies fresh transport
identities. -/
structure WSState where
  ws : Option WSHandle
  clientId : String
  pingIntervalActive : Bool
  pingPeriodMs : Option Nat
  hasProgressCallback : Bool
  hasConnCallback : Bool
  reconnectAttempts : Nat
  isConnecting : Bool
  pendingReconnectTimers : List Nat
  nextId : Nat
  deriving DecidableEq, Repr

/-- `maxReconnectAttempts = 3`. -/
def maxReconnectAttempts : Nat := 3

/-- The constructor: `clientId` is the fixed "client-" tag followed by a
random base-36 suffix; the suffix is a parameter here. -/
def WSState.init (suffix : String) : WSState :=
  { ws := none
    clientId := "client-" ++ suffix
    pingIntervalActive := false
    pingPeriodMs := none
    hasProgressCallback := false
    hasConnCallback := false
    reconnectAttempts := 0
    isConnecting := false
    pendingReconnectTimers := []
    nextId := 0 }

/-- Observable outputs of a transition. -/
inductive Out where
  | delivered (d : DownloadProgress)
  | sent (frame : String)
  | scheduledReconnect (delayMs : Nat)
  | connChanged (b : Bool)
  deriving DecidableEq, Repr

/-- The ready state of the current transport handle, if any. -/
def wsReadyState (s : WSState) : Option ReadyState :=
  s.ws.map WSHandle.readyState

/-- The `replace(/^http/, "ws")` call applied to `API_BASE_URL`: the
anchored regex replaces a leading `http` with `ws` and leaves the string
unchanged otherwise. -/
def replaceLeadingHttp (s : String) : String :=
  match s.data with
  | 'h' :: 't' :: 't' :: 'p' :: rest => String.mk ('w' :: 's' :: rest)
  | _ => s

/-- The connection target of `connect()`: the rewritten base URL, then
"/ws/", then the client identifier. -/
def wsTarget (base clientId : String) : String :=
  replaceLeadingHttp base ++ "/ws/" ++ clientId

/-- `this.onConnectionChangeCallback?.(b)`: fires only when registered. -/
def connChange (s : WSState) (b : Bool) : List Out :=
  if s.hasConnCallback then [Out.connChanged b] else []

/-- `connect()`.  Returns the new state, the number of transport
instances created (0 or 1) and the outputs.  `ctorFails` models the
`catch` branch around `new WebSocket(fullUrl)`. -/
def connect (base : String) (ctorFails : Bool) (s : WSState) :
    WSState × Nat × List Out :=
  if s.isConnecting then (s, 0, [])
  else if wsReadyState s = some ReadyState.OPEN then (s, 0, [])
  else if ctorFails then ({ s with isConnecting := false }, 0, connChange s false)
  else ({ s with
            isConnecting := true
            ws := some { id := s.nextId
                         url := wsTarget base s.clientId
                         readyState := ReadyState.CONNECTING }
            nextId := s.nextId + 1 },
        1, [])

/-- `startPing()`: installs the keep-alive interval with a 30000 ms
period. -/
def startPing (s : WSState) : WSState :=
  { s with pingIntervalActive := true, pingPeriodMs := some 30000 }

/-- `stopPing()`: clears the interval if one is active. -/
def stopPing (s : WSState) : WSState :=
  if s.pingIntervalActive then
    { s with pingIntervalActive := false, pingPeriodMs := none }
  else s

/-- A tick of the keep-alive interval: send the literal `"ping"` if the
transport is open, otherwise only warn (no output, no error). -/
def pingTick (s : WSState) : List Out :=
  if wsReadyState s = some ReadyState.OPEN then [Out.sent "ping"] else []

/-- The transport transition preceding the `open` event: the socket
reaches `OPEN`. -/
def openTransport (s : WSState) : WSState :=
  { s with ws := s.ws.map (fun h => { h with readyState := ReadyState.OPEN }) }

/-- The `ws.onopen` handler: clear `isConnecting`, reset the attempt
counter, start the keep-alive, notify the connection listener. -/
def handleOpen (s : WSState) : WSState × List Out :=
  let s1 := startPing { s with isConnecting := false, reconnectAttempts := 0 }
  (s1, connChange s1 true)

/-- The backoff delay used by `onclose`:
`2000 * Math.pow(2, attempts - 1)` after incrementing, i.e.
`2000 * 2 ^ n` where `n` is the pre-increment attempt count. -/
def reconnectDelay (n : Nat) : Nat :=
  2000 * 2 ^ n

/-- The transport transition preceding the `close` event: the socket
reaches `CLOSED`. -/
def closeTransport (s : WSState) : WSState :=
  { s with ws := s.ws.map (fun h => { h with readyState := ReadyState.CLOSED }) }

/-- The `ws.onclose` handler: clear `isConnecting`, stop the keep-alive,
notify the connection listener, and — when the attempt count is below the
ceiling — increment it and schedule a reconnect via `setTimeout`.
Returns the scheduled delay (if any) alongside state and outputs. -/
def handleClose (s : WSState) : WSState × Option Nat × List Out :=
  let s1 := stopPing { s with isConnecting := false }
  let outs := connChange s1 false
  if s1.reconnectAttempts < maxReconnectAttempts then
    let s2 := { s1 with reconnectAttempts := s1.reconnectAttempts + 1 }
    let d := reconnectDelay (s2.reconnectAttempts - 1)
    ({ s2 with pendingReconnectTimers := s2.pendingReconnectTimers ++ [d] },
     some d, outs ++ [Out.scheduledReconnect d])
  else (s1, none, outs)

/-- The `ws.onerror` handler: only notifies the connection listener. -/
def handleError (s : WSState) : List Out :=
  connChange s false

/-- The filter applied by `ws.onmessage`: status is "log", level is
"debug", and `shouldFilterLog` matches the message (an absent message is
read as the empty string, as the JS or-default does). -/
def isFilteredEvent (d : DownloadProgress) : Prop :=
  d.status = Status.log ∧ d.level = some Level.debug ∧
    shouldFilterLog ((d.message).getD "") = true

instance (d : DownloadProgress) : Decidable (isFilteredEvent d) :=
  inferInstanceAs (Decidable (d.status = Status.log ∧ d.level = some Level.debug ∧
    shouldFilterLog ((d.message).getD "") = true))

/-- The `ws.onmessage` handler.  The inbound frame is given as the result
of `JSON.parse` (`none` models a parse failure caught by the handler's
`try`/`catch`: logged and discarded).  A parsed event is dropped when the
noise filter matches, delivered to the progress callback when one is
registered, and otherwise dropped with a warning. -/
def handleMessage (s : WSState) (parsed : Option DownloadProgress) :
    WSState × List Out :=
  match parsed with
  | none => (s, [])
  | some data =>
    if isFilteredEvent data then (s, [])
    else if s.hasProgressCallback then (s, [Out.delivered data])
    else (s, [])

/-- `disconnect()`: close and release the transport handle if present,
then stop the keep-alive.  Nothing else is touched. -/
def disconnect (s : WSState) : WSState :=
  stopPing (if s.ws.isSome then { s with ws := none } else s)

/-- `getClientId()`. -/
def getClientId (s : WSState) : String :=
  s.clientId

/-! ### Operation sequences -/

/-- One external stimulus to the service: a method call, a transport
event, or a timer tick. -/
inductive Op where
  | connect (ctorFails : Bool)
  | opened
  | closeEvt
  | errorEvt
  | message (parsed : Option DownloadProgress)
  | timerTick
  | disconnect
  | registerProgress
  | registerConn
  deriving DecidableEq, Repr

/-- One step of the service. -/
def step (base : String) (s : WSState) : Op → WSState × List Out
  | Op.connect cf => ((connect base cf s).1, (connect base cf s).2.2)
  | Op.opened => handleOpen (openTransport s)
  | Op.closeEvt => ((handleClose (closeTransport s)).1,
                    (handleClose (closeTransport s)).2.2)
  | Op.errorEvt => (s, handleError s)
  | Op.message p => handleMessage s p
  | Op.timerTick => (s, if s.pingIntervalActive then pingTick s else [])
  | Op.disconnect => (disconnect s, [])
  | Op.registerProgress => ({ s with hasProgressCallback := true }, [])
  | Op.registerConn => ({ s with hasConnCallback := true }, [])

/-- Run a sequence of operations, collecting all outputs in order. -/
def runOuts (base : String) (s : WSState) : List Op → WSState × List Out
  | [] => (s, [])
  | o :: os =>
    ((runOuts base (step base s o).1 os).1,
     (step base s o).2 ++ (runOuts base (step base s o).1 os).2)

/-! ### Sample inputs used by the concrete witnesses -/

/-- A concrete base address (the default `API_BASE_URL`). -/
def baseSample : String := "http://localhost:8000"

/-- A freshly constructed service. -/
def sampleState : WSState := WSState.init "abc123xyz"

/-- A service that has exhausted its reconnect attempts. -/
def sampleMaxState : WSState :=
  { WSState.init "abc123xyz" with reconnectAttempts := 3 }

/-- A service with a progress callback registered. -/
def sampleCbState : WSState :=
  { WSState.init "abc123xyz" with hasProgressCallback := true }

/-- A service with a registered callback and an open transport. -/
def sampleOpenState : WSState :=
  { sampleCbState with
      ws := some { id := 0
                   url := "ws://localhost:8000/ws/client-abc123xyz"
                   readyState := ReadyState.OPEN } }

/-- A log event whose message matches the second filter pattern. -/
def sampleLogEvent : DownloadProgress :=
  { status := Status.log, message := some "Downloading webpage" }

/-- An ordinary progress event that no filter pattern matches. -/
def samplePlainEvent : DownloadProgress :=
  { status := Status.downloading, progress := some 42 }

/-! ### Helper lemmas -/

theorem stopPing_reconnectAttempts (s : WSState) :
    (stopPing s).reconnectAttempts = s.reconnectAttempts := by
  unfold stopPing; split <;> rfl

theorem stopPing_clientId (s : WSState) :
    (stopPing s).clientId = s.clientId := by
  unfold stopPing; split <;> rfl

theorem stopPing_pendingReconnectTimers (s : WSState) :
    (stopPing s).pendingReconnectTimers = s.pendingReconnectTimers := by
  unfold stopPing; split <;> rfl

theorem disconnect_reconnectAttempts (s : WSState) :
    (disconnect s).reconnectAttempts = s.reconnectAttempts := by
  unfold disconnect
  rw [stopPing_reconnectAttempts]
  split <;> rfl

theorem disconnect_pendingReconnectTimers (s : WSState) :
    (disconnect s).pendingReconnectTimers = s.pendingReconnectTimers := by
  unfold disconnect
  rw [stopPing_pendingReconnectTimers]
  split <;> rfl

theorem disconnect_clientId (s : WSState) :
    (disconnect s).clientId = s.clientId := by
  unfold disconnect
  rw [stopPing_clientId]
  split <;> rfl

theorem handleOpen_attempts (t : WSState) :
    (handleOpen t).1.reconnectAttempts = 0 := rfl

theorem handleClose_sched (t : WSState) :
    (handleClose t).2.1 =
      (if t.reconnectAttempts < maxReconnectAttempts
       then some (reconnectDelay t.reconnectAttempts) else none) := by
  have hs : (stopPing { t with isConnecting := false }).reconnectAttempts =
      t.reconnectAttempts := (stopPing_reconnectAttempts _).trans rfl
  simp only [handleClose]
  rw [hs]
  split
  · next hlt => simp [if_pos hlt]
  · next hge => simp [if_neg hge]

theorem handleClose_attempts (t : WSState) :
    (handleClose t).1.reconnectAttempts =
      (if t.reconnectAttempts < maxReconnectAttempts
       then t.reconnectAttempts + 1 else t.reconnectAttempts) := by
  have hs : (stopPing { t with isConnecting := false }).reconnectAttempts =
      t.reconnectAttempts := (stopPing_reconnectAttempts _).trans rfl
  simp only [handleClose]
  rw [hs]
  split
  · next hlt => simp [if_pos hlt]
  · next hge => simp [if_neg hge, hs]

theorem handleClose_clientId (t : WSState) :
    (handleClose t).1.clientId = t.clientId := by
  simp only [handleClose]
  split
  · next hlt => simp [stopPing_clientId]
  · next hge => simp [stopPing_clientId]

theorem connChange_no_sched (s : WSState) (b : Bool) (d : Nat) :
    Out.scheduledReconnect d ∉ connChange s b := by
  unfold connChange; split <;> simp

theorem handleClose_no_sched_of_max (t : WSState)
    (h : maxReconnectAttempts ≤ t.reconnectAttempts) (d : Nat) :
    Out.scheduledReconnect d ∉ (handleClose t).2.2 := by
  have hs : (stopPing { t with isConnecting := false }).reconnectAttempts =
      t.reconnectAttempts := (stopPing_reconnectAttempts _).trans rfl
  simp only [handleClose]
  rw [hs, if_neg (Nat.not_lt.mpr h)]
  exact connChange_no_sched _ false d

theorem connect_reconnectAttempts (base : String) (cf : Bool) (s : WSState) :
    (connect base cf s).1.reconnectAttempts = s.reconnectAttempts := by
  unfold connect
  split
  · rfl
  split
  · rfl
  split <;> rfl

theorem connect_clientId (base : String) (cf : Bool) (s : WSState) :
    (connect base cf s).1.clientId = s.clientId := by
  unfold connect
  split
  · rfl
  split
  · rfl
  split <;> rfl

theorem connect_no_sched (base : String) (cf : Bool) (s : WSState) (d : Nat) :
    Out.scheduledReconnect d ∉ (connect base cf s).2.2 := by
  unfold connect
  split
  · simp
  split
  · simp
  split
  · exact connChange_no_sched s false d
  · simp

theorem connect_noop_of_connecting (base : String) (cf : Bool) (t : WSState)
    (ht : t.isConnecting = true) : connect base cf t = (t, 0, []) := by
  simp [connect, ht]

theorem handleMessage_state (s : WSState) (p : Option DownloadProgress) :
    (handleMessage s p).1 = s := by
  unfold handleMessage
  split
  · rfl
  · split
    · rfl
    · split <;> rfl

theorem handleMessage_no_sched (s : WSState) (p : Option DownloadProgress)
    (d : Nat) : Out.scheduledReconnect d ∉ (handleMessage s p).2 := by
  unfold handleMessage
  split
  · simp
  · split
    · simp
    · split <;> simp

theorem pingTick_no_sched (s : WSState) (d : Nat) :
    Out.scheduledReconnect d ∉ (if s.pingIntervalActive then pingTick s else []) := by
  split
  · unfold pingTick; split <;> simp
  · simp

theorem step_clientId (base : String) (s : WSState) (o : Op) :
    (step base s o).1.clientId = s.clientId := by
  cases o with
  | connect cf => exact connect_clientId base cf s
  | opened => rfl
  | closeEvt => exact handleClose_clientId (closeTransport s)
  | errorEvt => rfl
  | message p =>
      show (handleMessage s p).1.clientId = s.clientId
      rw [handleMessage_state]
  | timerTick => rfl
  | disconnect => exact disconnect_clientId s
  | registerProgress => rfl
  | registerConn => rfl

theorem step_no_sched (base : String) (s : WSState) (o : Op)
    (ho : o ≠ Op.opened) (h : maxReconnectAttempts ≤ s.reconnectAttempts) :
    maxReconnectAttempts ≤ (step base s o).1.reconnectAttempts ∧
      ∀ d : Nat, Out.scheduledReconnect d ∉ (step base s o).2 := by
  cases o with
  | connect cf =>
      refine ⟨?_, fun d => connect_no_sched base cf s d⟩
      show maxReconnectAttempts ≤ (connect base cf s).1.reconnectAttempts
      rw [connect_reconnectAttempts]; exact h
  | opened => exact absurd rfl ho
  | closeEvt =>
      refine ⟨?_, fun d => handleClose_no_sched_of_max (closeTransport s) h d⟩
      show maxReconnectAttempts ≤ (handleClose (closeTransport s)).1.reconnectAttempts
      rw [handleClose_attempts]
      rw [show (closeTransport s).reconnectAttempts = s.reconnectAttempts from rfl]
      rw [if_neg (Nat.not_lt.mpr h)]
      exact h
  | errorEvt => exact ⟨h, fun d => connChange_no_sched s false d⟩
  | message p =>
      refine ⟨?_, fun d => handleMessage_no_sched s p d⟩
      show maxReconnectAttempts ≤ (handleMessage s p).1.reconnectAttempts
      rw [handleMessage_state]; exact h
  | timerTick => exact ⟨h, fun d => pingTick_no_sched s d⟩
  | disconnect =>
      refine ⟨?_, fun d => by simp [step]⟩
      show maxReconnectAttempts ≤ (disconnect s).reconnectAttempts
      rw [disconnect_reconnectAttempts]; exact h
  | registerProgress => exact ⟨h, fun d => by simp [step]⟩
  | registerConn => exact ⟨h, fun d => by simp [step]⟩

theorem runOuts_no_sched (base : String) (ops : List Op) :
    ∀ s : WSState, Op.opened ∉ ops →
      maxReconnectAttempts ≤ s.reconnectAttempts →
      ∀ d : Nat, Out.scheduledReconnect d ∉ (runOuts base s ops).2 := by
  induction ops with
  | nil =>
      intro s _ _ d
      simp [runOuts]
  | cons o os ih =>
      intro s hmem h d
      have ho : o ≠ Op.opened := by
        intro he
        exact hmem (by rw [← he]; exact List.mem_cons_self o os)
      obtain ⟨h1, h2⟩ := step_no_sched base s o ho h
      have hos : Op.opened ∉ os := fun hm => hmem (List.mem_cons_of_mem o hm)
      intro hx
      simp only [runOuts] at hx
      rcases List.mem_append.mp hx with hy | hy
      · exact h2 d hy
      · exact ih (step base s o).1 hos h1 d hy

theorem runOuts_clientId (base : String) (ops : List Op) :
    ∀ s : WSState, (runOuts base s ops).1.clientId = s.clientId := by
  induction ops with
  | nil => intro s; rfl
  | cons o os ih =>
      intro s
      exact (ih (step base s o).1).trans (step_clientId base s o)

/-! ### The claims -/

/-- C1: on every transport close, a reconnect is scheduled exactly when
the prior attempt count is below 3; scheduling increments the counter and
uses the delay 2000·2^n for prior count n, so each successive delay is
double (hence at least double) the previous one; once the ceiling is
reached, no operation sequence free of successful opens ever schedules
another reconnect; and every successful open resets the counter to
zero. -/
theorem c1_reconnect_backoff (base : String) (s : WSState) (ops : List Op)
    (hops : Op.opened ∉ ops)
    (hmax : maxReconnectAttempts ≤ s.reconnectAttempts) :
    (∀ t : WSState,
        (handleClose t).2.1 =
          (if t.reconnectAttempts < maxReconnectAttempts
           then some (reconnectDelay t.reconnectAttempts) else none) ∧
        (handleClose t).1.reconnectAttempts =
          (if t.reconnectAttempts < maxReconnectAttempts
           then t.reconnectAttempts + 1 else t.reconnectAttempts) ∧
        (handleOpen t).1.reconnectAttempts = 0) ∧
    (∀ n : Nat, reconnectDelay (n + 1) = 2 * reconnectDelay n) ∧
    (∀ d : Nat, Out.scheduledReconnect d ∉ (runOuts base s ops).2) := by
  refine ⟨fun t => ⟨handleClose_sched t, handleClose_attempts t,
                    handleOpen_attempts t⟩,
          fun n => ?_,
          fun d => runOuts_no_sched base ops s hops hmax d⟩
  simp [reconnectDelay, pow_succ]
  ring

/-- Witness for C1: a service at the attempt ceiling, hit by one more
close event, schedules nothing. -/
theorem c1_reconnect_backoff_witness :
    Op.opened ∉ [Op.closeEvt] ∧
    maxReconnectAttempts ≤ sampleMaxState.reconnectAttempts ∧
    Out.scheduledReconnect 2000 ∉
      (runOuts baseSample sampleMaxState [Op.closeEvt]).2 :=
  ⟨by decide, by decide,
   (c1_reconnect_backoff baseSample sampleMaxState [Op.closeEvt]
      (by decide) (by decide)).2.2 2000⟩

/-- C2: a log-status frame whose message matches a noise pattern is
dropped at level debug but delivered unchanged at level info; the message
"Downloading webpage" matches a noise pattern. -/
theorem c2_debug_filtering (s : WSState) (d : DownloadProgress)
    (hcb : s.hasProgressCallback = true) (hst : d.status = Status.log)
    (hf : shouldFilterLog ((d.message).getD "") = true) :
    (handleMessage s (some { d with level := some Level.debug })).2 = [] ∧
    (handleMessage s (some { d with level := some Level.info })).2 =
      [Out.delivered { d with level := some Level.info }] ∧
    shouldFilterLog "Downloading webpage" = true := by
  refine ⟨?_, ?_, by decide⟩
  · have hfe : isFilteredEvent { d with level := some Level.debug } :=
      ⟨hst, rfl, hf⟩
    simp [handleMessage, hfe]
  · have hnot : ¬ isFilteredEvent { d with level := some Level.info } := by
      simp [isFilteredEvent]
    simp [handleMessage, hnot, hcb]

/-- Witness for C2: the debug-level "Downloading webpage" frame is
filtered out for a service with a registered callback. -/
theorem c2_debug_filtering_witness :
    sampleCbState.hasProgressCallback = true ∧
    sampleLogEvent.status = Status.log ∧
    shouldFilterLog ((sampleLogEvent.message).getD "") = true ∧
    (handleMessage sampleCbState
      (some { sampleLogEvent with level := some Level.debug })).2 = [] :=
  ⟨by decide, by decide, by decide,
   (c2_debug_filtering sampleCbState sampleLogEvent
      (by decide) (by decide) (by decide)).1⟩

/-- C3: the connection target replaces a leading http scheme by ws (so
https becomes wss), appends "/ws/" and the client identifier; and the
handle created by `connect()` carries exactly that URL. -/
theorem c3_ws_target (rest cid base : String) (s : WSState)
    (h1 : s.isConnecting = false)
    (h2 : wsReadyState s ≠ some ReadyState.OPEN) :
    wsTarget ("http" ++ rest) cid = ("ws" ++ rest) ++ "/ws/" ++ cid ∧
    wsTarget "http://host:1234" cid = "ws://host:1234/ws/" ++ cid ∧
    wsTarget "https://host" cid = "wss://host/ws/" ++ cid ∧
    ((connect base false s).1.ws.map WSHandle.url) =
      some (wsTarget base s.clientId) := by
  obtain ⟨r⟩ := rest
  obtain ⟨c⟩ := cid
  refine ⟨rfl, rfl, rfl, ?_⟩
  simp [connect, h1, h2]

/-- Witness for C3: the derived target for the default base address. -/
theorem c3_ws_target_witness :
    sampleState.isConnecting = false ∧
    wsReadyState sampleState ≠ some ReadyState.OPEN ∧
    wsTarget "https://host" "client-abc123xyz" =
      "wss://host/ws/" ++ "client-abc123xyz" :=
  ⟨by decide, by decide,
   (c3_ws_target "://host:1234" "client-abc123xyz" baseSample sampleState
      (by decide) (by decide)).2.2.1⟩

/-- C4: with a listener registered, every parsed inbound event is
delivered to it exactly as decoded — the identical record, no field
changed — unless it is a debug-level log event matching a filter pattern,
which is never delivered; the handler never mutates the service state. -/
theorem c4_delivery_identity (s : WSState) (d : DownloadProgress)
    (hcb : s.hasProgressCallback = true) :
    (handleMessage s (some d)).2 =
      (if isFilteredEvent d then [] else [Out.delivered d]) ∧
    (handleMessage s (some d)).1 = s := by
  refine ⟨?_, handleMessage_state s (some d)⟩
  by_cases h : isFilteredEvent d <;> simp [handleMessage, h, hcb]

/-- Witness for C4: an unfiltered downloading event passes through
field-for-field. -/
theorem c4_delivery_identity_witness :
    sampleCbState.hasProgressCallback = true ∧
    (handleMessage sampleCbState (some samplePlainEvent)).2 =
      (if isFilteredEvent samplePlainEvent then []
       else [Out.delivered samplePlainEvent]) :=
  ⟨by decide,
   (c4_delivery_identity sampleCbState samplePlainEvent (by decide)).1⟩

/-- C5: `connect()` is a no-op (state unchanged, zero transport instances
created) whenever a connection attempt is in flight or the transport is
open; from an idle state, two successive calls create exactly one
transport instance — the first creates it, the second is a no-op. -/
theorem c5_connect_idempotent (base : String) (s : WSState)
    (h1 : s.isConnecting = false)
    (h2 : wsReadyState s ≠ some ReadyState.OPEN) :
    (∀ t : WSState, t.isConnecting = true →
        connect base false t = (t, 0, [])) ∧
    (∀ t : WSState, wsReadyState t = some ReadyState.OPEN →
        connect base false t = (t, 0, [])) ∧
    (connect base false s).2.1 = 1 ∧
    connect base false (connect base false s).1 =
      ((connect base false s).1, 0, []) := by
  have hfst : (connect base false s).1.isConnecting = true := by
    simp [connect, h1, h2]
  refine ⟨fun t ht => connect_noop_of_connecting base false t ht,
          fun t ht => ?_,
          by simp [connect, h1, h2],
          connect_noop_of_connecting base false _ hfst⟩
  by_cases hic : t.isConnecting
  · exact connect_noop_of_connecting base false t hic
  · simp [connect, ht, hic]

/-- Witness for C5: two successive calls from a fresh service. -/
theorem c5_connect_idempotent_witness :
    sampleState.isConnecting = false ∧
    wsReadyState sampleState ≠ some ReadyState.OPEN ∧
    (connect baseSample false sampleState).2.1 = 1 ∧
    connect baseSample false (connect baseSample false sampleState).1 =
      ((connect baseSample false sampleState).1, 0, []) :=
  ⟨by decide, by decide,
   (c5_connect_idempotent baseSample sampleState (by decide) (by decide)).2.2.1,
   (c5_connect_idempotent baseSample sampleState (by decide) (by decide)).2.2.2⟩

/-- C6: the client identifier is fixed at construction and survives every
sequence of operations; in particular `getClientId()` directly after a
`disconnect()` still returns it. -/
theorem c6_clientId_immutable (base suffix : String) (ops : List Op) :
    getClientId (runOuts base (WSState.init suffix) ops).1 =
      "client-" ++ suffix ∧
    getClientId (disconnect (runOuts base (WSState.init suffix) ops).1) =
      "client-" ++ suffix := by
  have h := runOuts_clientId base ops (WSState.init suffix)
  exact ⟨h.trans rfl, (disconnect_clientId _).trans (h.trans rfl)⟩

/-- C7: `disconnect()` touches neither the attempt counter nor any
pending reconnect timer, and sets no intentionally-closed flag: the close
handler run after a manual disconnect still schedules a reconnect exactly
when the attempt count is below the ceiling. -/
theorem c7_disconnect_no_cancel (s : WSState) :
    (disconnect s).reconnectAttempts = s.reconnectAttempts ∧
    (disconnect s).pendingReconnectTimers = s.pendingReconnectTimers ∧
    (handleClose (disconnect s)).2.1 =
      (if s.reconnectAttempts < maxReconnectAttempts
       then some (reconnectDelay s.reconnectAttempts) else none) := by
  refine ⟨disconnect_reconnectAttempts s, disconnect_pendingReconnectTimers s, ?_⟩
  rw [handleClose_sched, disconnect_reconnectAttempts]

/-- C8: an inbound frame that fails to parse is discarded without
invoking the listener and without touching the state; the message handler
is a total function that, for every input, leaves the connection state
unchanged. -/
theorem c8_parse_failure_safe (s : WSState) (p : Option DownloadProgress) :
    handleMessage s none = (s, []) ∧ (handleMessage s p).1 = s :=
  ⟨rfl, handleMessage_state s p⟩

/-- C9: a successful open starts the keep-alive interval with a 30000 ms
period; each tick sends the literal frame "ping" when the transport is
open and sends nothing (raising no error) otherwise. -/
theorem c9_keepalive_ping (s : WSState) :
    (handleOpen s).1.pingIntervalActive = true ∧
    (handleOpen s).1.pingPeriodMs = some 30000 ∧
    (wsReadyState s = some ReadyState.OPEN →
      pingTick s = [Out.sent "ping"]) ∧
    (wsReadyState s ≠ some ReadyState.OPEN → pingTick s = []) :=
  ⟨rfl, rfl, fun h => by simp [pingTick, h], fun h => by simp [pingTick, h]⟩

/-- Witness for C9: a tick on an open transport sends ping; a tick on a
fresh (closed) service sends nothing. -/
theorem c9_keepalive_ping_witness :
    wsReadyState sampleOpenState = some ReadyState.OPEN ∧
    pingTick sampleOpenState = [Out.sent "ping"] ∧
    wsReadyState sampleState ≠ some ReadyState.OPEN ∧
    pingTick sampleState = [] :=
  ⟨by decide, (c9_keepalive_ping sampleOpenState).2.2.1 (by decide),
   by decide, (c9_keepalive_ping sampleState).2.2.2 (by decide)⟩

/-- C10: with no progress listener registered, a validly parsed,
non-filtered event is silently dropped (state unchanged, nothing queued);
and in the run where the same frame arrives, a listener is then
registered, and the frame arrives again, only the second arrival is
delivered — the listener never sees the event that arrived before its
registration. -/
theorem c10_no_listener_drop (base : String) (s : WSState)
    (d : DownloadProgress) (hcb : s.hasProgressCallback = false)
    (hnf : ¬ isFilteredEvent d) :
    handleMessage s (some d) = (s, []) ∧
    (runOuts base s
      [Op.message (some d), Op.registerProgress, Op.message (some d)]).2 =
        [Out.delivered d] := by
  have h1 : handleMessage s (some d) = (s, []) := by
    simp [handleMessage, hnf, hcb]
  refine ⟨h1, ?_⟩
  simp [runOuts, step, handleMessage, hnf, hcb]

/-- Witness for C10: a plain downloading event on a fresh service. -/
theorem c10_no_listener_drop_witness :
    sampleState.hasProgressCallback = false ∧
    ¬ isFilteredEvent samplePlainEvent ∧
    handleMessage sampleState (some samplePlainEvent) = (sampleState, []) :=
  ⟨by decide, by decide,
   (c10_no_listener_drop baseSample sampleState samplePlainEvent
      (by decide) (by decide)).1⟩

end CliToolsFrontend
